import Mathlib

/-!
Verification of the 5p49v-rs VersaClock PLL driver.

The development embeds the driver's frequency-to-register encoding
(write_config), the VCO calibration handshake (calibrate_vco), and the
top-level flow (main) as executable Lean definitions, and proves the
specification's claims about them.

The I2C bus transport is modelled as an oracle: a function from the
index of the transaction being issued and the transaction itself to
either a transport failure or a list of response bytes.  Machine
integers (u8, u32, u64) are modelled as Nat with explicit truncation
(mod 2 to the width) at every point where the Rust code performs a cast
or an operation that could wrap.
-/

set_option maxRecDepth 8000

namespace Pll5p49v

/-- A single I2C bus transaction: an addressed write of a byte list, or an
addressed write-then-read (write the given bytes, then read back the given
number of bytes). -/
inductive Txn where
  | write : Nat → List Nat → Txn
  | writeRead : Nat → List Nat → Nat → Txn
deriving DecidableEq

/-- The bus transport, modelled as an oracle: for the n-th transaction issued
by the flow, either fail (transport error) or return response bytes. -/
def Oracle : Type := Nat → Txn → Except Unit (List Nat)

/-- View of the bus as seen after k transactions have already been issued. -/
def shiftOracle (o : Oracle) (k : Nat) : Oracle := fun n t => o (n + k) t

/-- I2C address of the PLL chip (const I2C_ADDRESS in the Rust source). -/
def I2C_ADDRESS : Nat := 0x6A

/- Compile-time chip configuration constants of write_config. -/

def EN_GLOBAL_SHUTDOWN : Bool := false

def SP : Bool := false

def EN_XTAL : Bool := false

def EN_CLKIN : Bool := true

def PRIMSRC : Bool := true

def TEST_MODE_VCO_BAND : Bool := false

def VCO_BAND : Nat := 0x0D

def CALIBRATION_START : Bool := true

def VCO_MONITOR_EN : Bool := false

/-- Feedback divider of write_config:
let feedback_divider = ((vco_fq_hz as u64) << 32) / (clock_fq_hz as u64).
The left shift is a u64 shift, hence the mod 2 to the 64. -/
def feedback_divider (clock_fq_hz vco_fq_hz : Nat) : Nat :=
  ((vco_fq_hz <<< 32) % 2 ^ 64) / clock_fq_hz

/-- Sigma-delta modulator order of write_config: starts at 3 and is set to 0
(bypass) when the feedback divider's low 32 bits are zero. -/
def sigma_delta_order (clock_fq_hz vco_fq_hz : Nat) : Nat :=
  if feedback_divider clock_fq_hz vco_fq_hz &&& 0xFFFFFFFF = 0 then 0 else 3

/-- Output divider of write_config:
od = ((vco_fq_hz as u64) << 31) / (output_fq_hz as u64).
Note the 31-bit shift, one bit narrower than the feedback divider's. -/
def output_divider (vco_fq_hz output_fq_hz : Nat) : Nat :=
  ((vco_fq_hz <<< 31) % 2 ^ 64) / output_fq_hz

/-- The 107-byte register image built by write_config: the start register
address byte 0x00 followed by the 106 register values.  Every Rust u8 cast
is rendered as mod 256; the u8 sum in the byte for register 0x18 is likewise
reduced mod 256. -/
def prog_array (clock_fq_hz vco_fq_hz output1_fq_hz output2_fq_hz
    output3_fq_hz output4_fq_hz : Nat) : List Nat :=
  let fd := feedback_divider clock_fq_hz vco_fq_hz
  let sdo := sigma_delta_order clock_fq_hz vco_fq_hz
  let od1 := output_divider vco_fq_hz output1_fq_hz
  let od2 := output_divider vco_fq_hz output2_fq_hz
  let od3 := output_divider vco_fq_hz output3_fq_hz
  let od4 := output_divider vco_fq_hz output4_fq_hz
  [0x00, -- Send the start register address
   -- Registers 0x00 - 0x16
   0x61, 0x0F, 0x00, 0x00, 0x00, 0x00, 0x00, 0x00, 0x00, 0xFF, 0x01, 0xC0,
   0x00, 0xB6, 0xB4, 0x92,
   0x00 + (if EN_GLOBAL_SHUTDOWN then 0x01 else 0) + (if SP then 0x02 else 0)
     + (if EN_CLKIN then 0x40 else 0) + (if EN_XTAL then 0x80 else 0), -- 0x10
   0x00 + (if TEST_MODE_VCO_BAND then 0x20 else 0) + VCO_BAND, -- 0x11
   0x81, -- 0x12 - Crystal X1 Load Capacitor Register
   0x80 + (if PRIMSRC then 0x02 else 0), -- 0x13 - Factory Reserved Bit
   0x00, 0x03, 0x84,
   -- End Registers 0x00 - 0x16
   (fd >>> 36) % 256, -- 0x17 Feedback divider integer
   ((((fd >>> 28) % 256) &&& 0xF0) + ((sdo <<< 2) % 256)) % 256, -- 0x18
   (fd >>> 24) % 256, -- 0x19 Feedback divider fraction
   (fd >>> 16) % 256, -- 0x1A Feedback divider fraction
   (fd >>> 8) % 256, -- 0x1B Feedback divider fraction
   0x1F + (if CALIBRATION_START then 0x80 else 0), -- 0x1C
   0xFD + (if VCO_MONITOR_EN then 0x02 else 0), -- 0x1D
   0xC8, 0x80, 0x00, 0x81,
   ((od1 >>> 30) % 256) &&& 0b11, -- 0x22 OD1 fraction
   (od1 >>> 22) % 256, -- 0x23 OD1 fraction
   (od1 >>> 14) % 256, -- 0x24 OD1 fraction
   ((od1 >>> 6) % 256) &&& 0b11111100, -- 0x25 OD1 fraction
   0x00, 0x00, 0x00, 0x00, 0x04, 0x00, 0x00, -- Registers 0x26 - 0x2C
   (od1 >>> 36) % 256, -- 0x2D OD1 integer
   ((od1 >>> 28) % 256) &&& 0xF0, -- 0x2E OD1 integer
   0x00, 0x00, 0x81, -- Registers 0x2F - 0x31
   ((od2 >>> 30) % 256) &&& 0b11, -- 0x32 OD2 fraction
   (od2 >>> 22) % 256, -- 0x33 OD2 fraction
   (od2 >>> 14) % 256, -- 0x34 OD2 fraction
   ((od2 >>> 6) % 256) &&& 0b11111100, -- 0x35 OD2 fraction
   0x00, 0x00, 0x00, 0x00, 0x04, 0x00, 0x00, -- Registers 0x36 - 0x3C
   (od2 >>> 36) % 256, -- 0x3D OD2 integer
   ((od2 >>> 28) % 256) &&& 0xF0, -- 0x3E OD2 integer
   0x00, 0x00, 0x81, -- Registers 0x3F - 0x41
   ((od3 >>> 30) % 256) &&& 0b11, -- 0x42 OD3 fraction
   (od3 >>> 22) % 256, -- 0x43 OD3 fraction
   (od3 >>> 14) % 256, -- 0x44 OD3 fraction
   ((od3 >>> 6) % 256) &&& 0b11111100, -- 0x45 OD3 fraction
   0x00, 0x00, 0x00, 0x00, 0x04, 0x00, 0x00, -- Registers 0x46 - 0x4C
   (od3 >>> 36) % 256, -- 0x4D OD3 integer
   ((od3 >>> 28) % 256) &&& 0xF0, -- 0x4E OD3 integer
   0x00, 0x00, 0x81, -- Registers 0x4F - 0x51
   ((od4 >>> 30) % 256) &&& 0b11, -- 0x52 OD4 fraction
   (od4 >>> 22) % 256, -- 0x53 OD4 fraction
   (od4 >>> 14) % 256, -- 0x54 OD4 fraction
   ((od4 >>> 6) % 256) &&& 0b11111100, -- 0x55 OD4 fraction
   0x00, 0x00, 0x00, 0x00, 0x04, 0x00, 0x00, -- Registers 0x56 - 0x5C
   (od4 >>> 36) % 256, -- 0x5D OD4 integer
   ((od4 >>> 28) % 256) &&& 0xF0, -- 0x5E OD4 integer
   0x00, -- Register 0x5F
   0x3B, 0x01, -- 0x60, 0x61 - Clock1 output configuration
   0x3B, 0x01, -- 0x62, 0x63 - Clock2 output configuration
   0x3B, 0x01, -- 0x64, 0x65 - Clock3 output configuration
   0x3B, 0x01, -- 0x66, 0x67 - Clock4 output configuration
   0xFF, 0xFC] -- Registers 0x68 - 0x69

/-- write_config: builds the register image and issues it as one block write
(transaction 0 of the oracle it is given).  Returns the issued transaction
and the propagated bus result. -/
def write_config (o : Oracle) (clock_fq_hz vco_fq_hz output1_fq_hz
    output2_fq_hz output3_fq_hz output4_fq_hz : Nat) :
    Txn × Except Unit Unit :=
  let t := Txn.write I2C_ADDRESS (prog_array clock_fq_hz vco_fq_hz
    output1_fq_hz output2_fq_hz output3_fq_hz output4_fq_hz)
  (t, match o 0 t with
      | .error e => .error e
      | .ok _ => .ok ())

/-- calibrate_vco: read register 0x1C, write its value back with bit 7
cleared, set, cleared again, then read register 0x99 whose top 5 bits are
the VCO band index.  Each bus failure is propagated immediately via the Rust
question-mark operator.  Returns the list of transactions actually issued
and the result; on success the result carries the VCO band index that the
Rust code logs (resp_buff[0] >> 3). -/
def calibrate_vco (o : Oracle) : List Txn × Except Unit Nat :=
  let t0 := Txn.writeRead I2C_ADDRESS [0x1C] 1
  match o 0 t0 with
  | .error e => ([t0], .error e)
  | .ok r0 =>
    -- resp_buff is a one-byte buffer
    let v := r0.headD 0 % 256
    let t1 := Txn.write I2C_ADDRESS [0x1C, v &&& 0x7F]
    match o 1 t1 with
    | .error e => ([t0, t1], .error e)
    | .ok _ =>
      let t2 := Txn.write I2C_ADDRESS [0x1C, v ||| 0x80]
      match o 2 t2 with
      | .error e => ([t0, t1, t2], .error e)
      | .ok _ =>
        let t3 := Txn.write I2C_ADDRESS [0x1C, v &&& 0x7F]
        match o 3 t3 with
        | .error e => ([t0, t1, t2, t3], .error e)
        | .ok _ =>
          let t4 := Txn.writeRead I2C_ADDRESS [0x99] 1
          match o 4 t4 with
          | .error e => ([t0, t1, t2, t3, t4], .error e)
          | .ok r4 => ([t0, t1, t2, t3, t4], .ok ((r4.headD 0 % 256) >>> 3))

/-- The successful five-transaction calibration sequence, as a function of
the byte v initially read from register 0x1C. -/
def calibTxns (v : Nat) : List Txn :=
  [Txn.writeRead I2C_ADDRESS [0x1C] 1,
   Txn.write I2C_ADDRESS [0x1C, v &&& 0x7F],
   Txn.write I2C_ADDRESS [0x1C, v ||| 0x80],
   Txn.write I2C_ADDRESS [0x1C, v &&& 0x7F],
   Txn.writeRead I2C_ADDRESS [0x99] 1]

/-- The top-level flow of main: program the frequencies with write_config
(logging but otherwise ignoring its result), then run calibrate_vco
unconditionally on the same bus.  Returns the full transaction trace and
both results. -/
def mainFlow (o : Oracle) : List Txn × Except Unit Unit × Except Unit Nat :=
  let clock_fq_hz := 10000000
  let vco_fq_hz := 2700000000
  let cfg := write_config o clock_fq_hz vco_fq_hz
    40000000 25000000 24000000 28800000
  let cal := calibrate_vco (shiftOracle o 1)
  (cfg.1 :: cal.1, cfg.2, cal.2)

/- Auxiliary oracles used to instantiate the theorems at concrete inputs. -/

/-- An oracle on which every transaction succeeds, reads answering 0xAB. -/
def okOracle : Oracle := fun _ t =>
  match t with
  | .write _ _ => Except.ok []
  | .writeRead _ _ _ => Except.ok [0xAB]

/-- An oracle on which every transaction fails. -/
def failOracle : Oracle := fun _ _ => Except.error ()

/-- An oracle failing exactly on the third transaction (index 2). -/
def failAt2Oracle : Oracle := fun n t =>
  if n = 2 then Except.error ()
  else match t with
  | .write _ _ => Except.ok []
  | .writeRead _ _ _ => Except.ok [0]

/- Shared helper lemmas about the divider arithmetic. -/

theorem feedback_divider_eq (c v : Nat) (hvb : v < 2 ^ 32) :
    feedback_divider c v = v * 2 ^ 32 / c := by
  unfold feedback_divider
  rw [Nat.shiftLeft_eq, Nat.mod_eq_of_lt]
  calc v * 2 ^ 32 < 2 ^ 32 * 2 ^ 32 := by
        exact Nat.mul_lt_mul_of_pos_right hvb (by norm_num)
    _ = 2 ^ 64 := by norm_num

theorem output_divider_eq (v o : Nat) (hvb : v < 2 ^ 32) :
    output_divider v o = v * 2 ^ 31 / o := by
  unfold output_divider
  rw [Nat.shiftLeft_eq, Nat.mod_eq_of_lt]
  calc v * 2 ^ 31 < 2 ^ 32 * 2 ^ 31 := by
        exact Nat.mul_lt_mul_of_pos_right hvb (by norm_num)
    _ < 2 ^ 64 := by norm_num

theorem feedback_divider_div (c v : Nat) (hc : 0 < c) (hvb : v < 2 ^ 32) :
    feedback_divider c v / 2 ^ 32 = v / c := by
  rw [feedback_divider_eq c v hvb, Nat.div_div_eq_div_mul,
    Nat.mul_div_mul_right v c (by norm_num : (0:Nat) < 2 ^ 32)]

theorem feedback_divider_mod (c v : Nat) (hc : 0 < c) (hvb : v < 2 ^ 32) :
    feedback_divider c v % 2 ^ 32 = v % c * 2 ^ 32 / c := by
  rw [feedback_divider_eq c v hvb]
  have hsplit : v * 2 ^ 32 = v % c * 2 ^ 32 + v / c * 2 ^ 32 * c := by
    have := Nat.div_add_mod v c
    calc v * 2 ^ 32 = (c * (v / c) + v % c) * 2 ^ 32 := by rw [this]
      _ = v % c * 2 ^ 32 + v / c * 2 ^ 32 * c := by ring
  rw [hsplit, Nat.add_mul_div_right _ _ hc, Nat.add_mul_mod_self_right,
    Nat.mod_eq_of_lt]
  exact Nat.div_lt_of_lt_mul (by
    have : v % c < c := Nat.mod_lt v hc
    calc v % c * 2 ^ 32 < c * 2 ^ 32 := by
          exact Nat.mul_lt_mul_of_pos_right this (by norm_num)
      _ = c * 2 ^ 32 := rfl)

theorem div_bracket (a b : Nat) (hb : 0 < b) :
    a / b * b ≤ a ∧ a < a / b * b + b := by
  have h1 := Nat.div_add_mod a b
  have h2 := Nat.mod_lt a hb
  rw [Nat.mul_comm] at h1
  omega

/-- C2: for positive 32-bit reference and VCO frequencies, the feedback
divider equals (vco shifted left 32) / reference; it fits in 64 bits; its
upper 32 bits are floor(vco/ref) (which itself fits in 32 bits, so the
32-bit truncation is the identity); its lower 32 bits are the remainder
scaled to 32-bit fixed point; and the divider times the reference brackets
vco shifted left 32 within one quantization step (so (integer +
fraction / 2 to the 32) times referenceHz approximates vcoHz within one
fractional-bit step). -/
theorem feedback_divider_spec (c v : Nat) (hc : 0 < c) (hcb : c < 2 ^ 32)
    (hv : 0 < v) (hvb : v < 2 ^ 32) :
    feedback_divider c v = v * 2 ^ 32 / c ∧
    feedback_divider c v < 2 ^ 64 ∧
    feedback_divider c v / 2 ^ 32 = v / c ∧
    v / c < 2 ^ 32 ∧
    feedback_divider c v % 2 ^ 32 = v % c * 2 ^ 32 / c ∧
    feedback_divider c v * c ≤ v * 2 ^ 32 ∧
    v * 2 ^ 32 < feedback_divider c v * c + c := by
  refine ⟨feedback_divider_eq c v hvb, ?_, feedback_divider_div c v hc hvb,
    ?_, feedback_divider_mod c v hc hvb, ?_, ?_⟩
  · rw [feedback_divider_eq c v hvb]
    calc v * 2 ^ 32 / c ≤ v * 2 ^ 32 := Nat.div_le_self _ _
      _ < 2 ^ 32 * 2 ^ 32 := Nat.mul_lt_mul_of_pos_right hvb (by norm_num)
      _ = 2 ^ 64 := by norm_num
  · calc v / c ≤ v := Nat.div_le_self _ _
      _ < 2 ^ 32 := hvb
  · rw [feedback_divider_eq c v hvb]
    exact (div_bracket (v * 2 ^ 32) c hc).1
  · rw [feedback_divider_eq c v hvb]
    exact (div_bracket (v * 2 ^ 32) c hc).2

theorem feedback_divider_spec_witness :
    0 < 10000000 ∧ 0 < 2700000000 ∧
    (feedback_divider 10000000 2700000000 = 2700000000 * 2 ^ 32 / 10000000 ∧
     feedback_divider 10000000 2700000000 < 2 ^ 64 ∧
     feedback_divider 10000000 2700000000 / 2 ^ 32 = 2700000000 / 10000000 ∧
     2700000000 / 10000000 < 2 ^ 32 ∧
     feedback_divider 10000000 2700000000 % 2 ^ 32
       = 2700000000 % 10000000 * 2 ^ 32 / 10000000 ∧
     feedback_divider 10000000 2700000000 * 10000000 ≤ 2700000000 * 2 ^ 32 ∧
     2700000000 * 2 ^ 32 < feedback_divider 10000000 2700000000 * 10000000
       + 10000000) :=
  ⟨by decide, by decide,
   feedback_divider_spec 10000000 2700000000 (by decide) (by decide)
     (by decide) (by decide)⟩

/-- C3: the sigma-delta order is 0 (off) exactly when vcoHz is an integer
multiple of referenceHz, equivalently when the feedback divider's low 32
bits are zero; otherwise it is 3. -/
theorem sigma_delta_order_spec (c v : Nat) (hc : 0 < c) (hcb : c < 2 ^ 32)
    (hv : 0 < v) (hvb : v < 2 ^ 32) :
    (sigma_delta_order c v = 0 ↔ c ∣ v) ∧
    (sigma_delta_order c v = 0 ↔ feedback_divider c v % 2 ^ 32 = 0) ∧
    (¬ c ∣ v → sigma_delta_order c v = 3) := by
  have hmask : feedback_divider c v &&& 0xFFFFFFFF
      = feedback_divider c v % 2 ^ 32 := by
    have h32 : (0xFFFFFFFF : Nat) = 2 ^ 32 - 1 := by norm_num
    rw [h32, Nat.and_pow_two_sub_one_eq_mod]
  have hlow : feedback_divider c v % 2 ^ 32 = 0 ↔ c ∣ v := by
    rw [feedback_divider_mod c v hc hvb, Nat.div_eq_zero_iff hc]
    constructor
    · intro h
      have hvc : v % c = 0 := by
        by_contra hne
        have h1 : 1 ≤ v % c := Nat.one_le_iff_ne_zero.mpr hne
        have h2 : 2 ^ 32 ≤ v % c * 2 ^ 32 := by
          calc (2:Nat) ^ 32 = 1 * 2 ^ 32 := by ring
            _ ≤ v % c * 2 ^ 32 := Nat.mul_le_mul_right _ h1
        omega
      exact Nat.dvd_of_mod_eq_zero hvc
    · intro h
      have hvc : v % c = 0 := Nat.dvd_iff_mod_eq_zero.mp h
      rw [hvc]
      simpa using hc
  by_cases hz : feedback_divider c v &&& 0xFFFFFFFF = 0
  · have hdvd : c ∣ v := hlow.mp (hmask.symm.trans hz)
    have hval : sigma_delta_order c v = 0 := by
      unfold sigma_delta_order
      rw [if_pos hz]
    exact ⟨⟨fun _ => hdvd, fun _ => hval⟩,
      ⟨fun _ => hmask.symm.trans hz, fun _ => hval⟩,
      fun hn => absurd hdvd hn⟩
  · have hndvd : ¬ c ∣ v := fun hd => hz (hmask.trans (hlow.mpr hd))
    have hmod : feedback_divider c v % 2 ^ 32 ≠ 0 :=
      fun h0 => hz (hmask.trans h0)
    have hval : sigma_delta_order c v = 3 := by
      unfold sigma_delta_order
      rw [if_neg hz]
    exact ⟨⟨fun h0 => absurd (hval.symm.trans h0) (by decide),
        fun hd => absurd hd hndvd⟩,
      ⟨fun h0 => absurd (hval.symm.trans h0) (by decide),
        fun h0 => absurd h0 hmod⟩,
      fun _ => hval⟩

theorem sigma_delta_order_spec_witness :
    0 < 10000000 ∧ 0 < 2700000000 ∧
    ((sigma_delta_order 10000000 2700000000 = 0 ↔ 10000000 ∣ 2700000000) ∧
     (sigma_delta_order 10000000 2700000000 = 0 ↔
       feedback_divider 10000000 2700000000 % 2 ^ 32 = 0) ∧
     (¬ 10000000 ∣ 2700000000 → sigma_delta_order 10000000 2700000000 = 3)) :=
  ⟨by decide, by decide,
   sigma_delta_order_spec 10000000 2700000000 (by decide) (by decide)
     (by decide) (by decide)⟩

/-- C4: for positive 32-bit vcoHz and a positive outputHz, the output
divider equals (vco shifted left 31) / output, a 31-bit shift, one bit
narrower than the feedback divider's 32-bit shift, and the divider times
the output frequency brackets vco shifted left 31 within one quantization
step of the output fixed point. -/
theorem output_divider_spec (v o : Nat) (hv : 0 < v) (hvb : v < 2 ^ 32)
    (ho : 0 < o) :
    output_divider v o = v * 2 ^ 31 / o ∧
    output_divider v o * o ≤ v * 2 ^ 31 ∧
    v * 2 ^ 31 < output_divider v o * o + o ∧
    feedback_divider o v = ((v <<< 32) % 2 ^ 64) / o ∧
    output_divider v o = ((v <<< 31) % 2 ^ 64) / o := by
  refine ⟨output_divider_eq v o hvb, ?_, ?_, rfl, rfl⟩
  · rw [output_divider_eq v o hvb]
    exact (div_bracket (v * 2 ^ 31) o ho).1
  · rw [output_divider_eq v o hvb]
    exact (div_bracket (v * 2 ^ 31) o ho).2

theorem output_divider_spec_witness :
    0 < 2700000000 ∧ 0 < 40000000 ∧
    (output_divider 2700000000 40000000 = 2700000000 * 2 ^ 31 / 40000000 ∧
     output_divider 2700000000 40000000 * 40000000 ≤ 2700000000 * 2 ^ 31 ∧
     2700000000 * 2 ^ 31 < output_divider 2700000000 40000000 * 40000000
       + 40000000 ∧
     feedback_divider 40000000 2700000000
       = ((2700000000 <<< 32) % 2 ^ 64) / 40000000 ∧
     output_divider 2700000000 40000000
       = ((2700000000 <<< 31) % 2 ^ 64) / 40000000) :=
  ⟨by decide, by decide,
   output_divider_spec 2700000000 40000000 (by decide) (by decide) (by decide)⟩

/-- C5: for every valid input (all six frequencies positive), the register
image has exactly 107 bytes, its byte 0 is the start register address 0x00,
and it is a pure function of the six frequency inputs. -/
theorem prog_array_spec (c v o1 o2 o3 o4 : Nat) (hc : 0 < c) (hv : 0 < v)
    (h1 : 0 < o1) (h2 : 0 < o2) (h3 : 0 < o3) (h4 : 0 < o4) :
    (prog_array c v o1 o2 o3 o4).length = 107 ∧
    (prog_array c v o1 o2 o3 o4).headD 0 = 0x00 ∧
    ∀ c' v' o1' o2' o3' o4', c = c' → v = v' → o1 = o1' → o2 = o2' →
      o3 = o3' → o4 = o4' →
      prog_array c v o1 o2 o3 o4 = prog_array c' v' o1' o2' o3' o4' := by
  refine ⟨rfl, rfl, ?_⟩
  intro c' v' o1' o2' o3' o4' e1 e2 e3 e4 e5 e6
  rw [e1, e2, e3, e4, e5, e6]

theorem prog_array_spec_witness :
    (prog_array 10000000 2700000000 40000000 25000000 24000000
      28800000).length = 107 ∧
    (prog_array 10000000 2700000000 40000000 25000000 24000000
      28800000).headD 0 = 0x00 ∧
    ∀ c' v' o1' o2' o3' o4', 10000000 = c' → 2700000000 = v' →
      40000000 = o1' → 25000000 = o2' → 24000000 = o3' → 28800000 = o4' →
      prog_array 10000000 2700000000 40000000 25000000 24000000 28800000
        = prog_array c' v' o1' o2' o3' o4' :=
  prog_array_spec 10000000 2700000000 40000000 25000000 24000000 28800000
    (by decide) (by decide) (by decide) (by decide) (by decide) (by decide)

/- Helper lemmas for the bit layout of the feedback divider bytes. -/

theorem land_F0 : ∀ y < 256, y &&& 0xF0 = y / 16 * 16 := by decide

theorem sdo_cases (c v : Nat) :
    sigma_delta_order c v = 0 ∨ sigma_delta_order c v = 3 := by
  unfold sigma_delta_order
  by_cases hz : feedback_divider c v &&& 0xFFFFFFFF = 0
  · left
    rw [if_pos hz]
  · right
    rw [if_neg hz]

theorem byte25_eq (fd sdo : Nat) (hsdo : sdo = 0 ∨ sdo = 3) :
    ((((fd >>> 28) % 256) &&& 0xF0) + ((sdo <<< 2) % 256)) % 256
      = fd / 2 ^ 32 % 2 ^ 4 * 2 ^ 4 + sdo * 2 ^ 2 := by
  have hy : (fd >>> 28) % 256 < 256 := Nat.mod_lt _ (by norm_num)
  have hmask := land_F0 ((fd >>> 28) % 256) hy
  have hdiv : (fd >>> 28) % 256 / 16 = fd / 2 ^ 32 % 2 ^ 4 := by
    rw [Nat.shiftRight_eq_div_pow]
    have h256 : (256 : Nat) = 16 * 16 := by norm_num
    rw [h256, Nat.mod_mul_right_div_self, Nat.div_div_eq_div_mul]
    norm_num
  have hub : fd / 2 ^ 32 % 2 ^ 4 < 2 ^ 4 := Nat.mod_lt _ (by norm_num)
  rcases hsdo with h | h <;>
    rw [h] <;>
    rw [hmask, hdiv] <;>
    norm_num <;>
    omega

theorem byte_shift_eq (fd k : Nat) :
    (fd >>> k) % 256 = fd / 2 ^ k % 2 ^ 8 := by
  rw [Nat.shiftRight_eq_div_pow]
  norm_num

/-- C6 (amended): the feedback divider's integer and fractional fields are
split across five register bytes of the image, registers 0x17 through 0x1B
(image indices 24 through 28): bits 36 to 43 of the 64-bit divider occupy
the whole byte of register 0x17; register 0x18 holds the next 4 integer
bits (bits 32 to 35) in its top nibble plus the sigma-delta order encoded
in bits 2 and 3; and the three remaining fractional bytes 0x19, 0x1A, 0x1B
follow at 8-bit-aligned shifts 24, 16 and 8. -/
theorem feedback_divider_layout (c v o1 o2 o3 o4 : Nat) :
    (prog_array c v o1 o2 o3 o4).getD 24 0
      = feedback_divider c v / 2 ^ 36 % 2 ^ 8 ∧
    (prog_array c v o1 o2 o3 o4).getD 25 0
      = feedback_divider c v / 2 ^ 32 % 2 ^ 4 * 2 ^ 4
        + sigma_delta_order c v * 2 ^ 2 ∧
    (prog_array c v o1 o2 o3 o4).getD 26 0
      = feedback_divider c v / 2 ^ 24 % 2 ^ 8 ∧
    (prog_array c v o1 o2 o3 o4).getD 27 0
      = feedback_divider c v / 2 ^ 16 % 2 ^ 8 ∧
    (prog_array c v o1 o2 o3 o4).getD 28 0
      = feedback_divider c v / 2 ^ 8 % 2 ^ 8 := by
  refine ⟨?_, ?_, ?_, ?_, ?_⟩
  · show (feedback_divider c v >>> 36) % 256 = _
    exact byte_shift_eq _ 36
  · show ((((feedback_divider c v >>> 28) % 256) &&& 0xF0)
        + ((sigma_delta_order c v <<< 2) % 256)) % 256 = _
    exact byte25_eq _ _ (sdo_cases c v)
  · show (feedback_divider c v >>> 24) % 256 = _
    exact byte_shift_eq _ 24
  · show (feedback_divider c v >>> 16) % 256 = _
    exact byte_shift_eq _ 16
  · show (feedback_divider c v >>> 8) % 256 = _
    exact byte_shift_eq _ 8

/-- C6 counterexample: the image bytes that carry the feedback divider are
the five at indices 24 through 28 (registers 0x17 through 0x1B), not four.
With reference 1 and VCO 100 versus reference 7 and VCO 100 (same output
frequencies), the two images differ exactly at those five positions. -/
theorem feedback_divider_spans_five_bytes :
    ((List.range 107).filter fun i =>
        decide ((prog_array 1 100 1 1 1 1).getD i 0
          ≠ (prog_array 7 100 1 1 1 1).getD i 0))
      = [24, 25, 26, 27, 28] ∧
    ¬ ((List.range 107).filter fun i =>
        decide ((prog_array 1 100 1 1 1 1).getD i 0
          ≠ (prog_array 7 100 1 1 1 1).getD i 0)).length = 4 := by
  constructor
  · decide
  · decide

/- Helper lemmas about the bit-7 manipulation of the calibration writes. -/

theorem land7F_eq_mod (v : Nat) : v &&& 0x7F = v % 2 ^ 7 := by
  have h : (0x7F : Nat) = 2 ^ 7 - 1 := by norm_num
  rw [h, Nat.and_pow_two_sub_one_eq_mod]

theorem testBit7_land (v : Nat) : (v &&& 0x7F).testBit 7 = false := by
  apply Nat.testBit_lt_two_pow
  have h := Nat.and_le_right (n := v) (m := 0x7F)
  omega

theorem testBit7_lor (v : Nat) : (v ||| 0x80).testBit 7 = true := by
  simp [Nat.testBit_or]
  right
  decide

/-- C7: when every bus transaction succeeds, calibrate_vco issues exactly 5
transactions in the fixed order read, write, write, write, read, the first
four addressing register 0x1C and the last register 0x99; the three writes
carry the initially read byte with bit 7 cleared, then set, then cleared;
and the result is the top 5 bits of the byte read from register 0x99. -/
theorem calibrate_vco_sequence (o : Oracle) (r0 u1 u2 u3 r4 : List Nat)
    (h0 : o 0 (Txn.writeRead I2C_ADDRESS [0x1C] 1) = Except.ok r0)
    (h1 : o 1 (Txn.write I2C_ADDRESS [0x1C, (r0.headD 0 % 256) &&& 0x7F])
      = Except.ok u1)
    (h2 : o 2 (Txn.write I2C_ADDRESS [0x1C, (r0.headD 0 % 256) ||| 0x80])
      = Except.ok u2)
    (h3 : o 3 (Txn.write I2C_ADDRESS [0x1C, (r0.headD 0 % 256) &&& 0x7F])
      = Except.ok u3)
    (h4 : o 4 (Txn.writeRead I2C_ADDRESS [0x99] 1) = Except.ok r4) :
    calibrate_vco o = (calibTxns (r0.headD 0 % 256),
      Except.ok ((r4.headD 0 % 256) >>> 3)) ∧
    (calibTxns (r0.headD 0 % 256)).length = 5 ∧
    ((r0.headD 0 % 256) &&& 0x7F).testBit 7 = false ∧
    ((r0.headD 0 % 256) ||| 0x80).testBit 7 = true := by
  refine ⟨?_, rfl, testBit7_land _, testBit7_lor _⟩
  simp only [calibrate_vco, calibTxns, h0, h1, h2, h3, h4]

theorem calibrate_vco_sequence_witness :
    calibrate_vco okOracle = (calibTxns ([0xAB].headD 0 % 256),
      Except.ok (([0xAB].headD 0 % 256) >>> 3)) ∧
    (calibTxns ([0xAB].headD 0 % 256)).length = 5 ∧
    (([0xAB].headD 0 % 256) &&& 0x7F).testBit 7 = false ∧
    (([0xAB].headD 0 % 256) ||| 0x80).testBit 7 = true :=
  calibrate_vco_sequence okOracle [0xAB] [] [] [] [0xAB]
    rfl rfl rfl rfl rfl

/-- C8: if a calibration step's bus transaction fails, calibrate_vco skips
every remaining step and reports the failure: the issued transactions are
exactly the first k+1 of the five-step sequence, the k-th (last issued)
transaction is the one that failed, every earlier transaction succeeded,
and none is issued twice (no retry, no resume, no restart). -/
theorem calibrate_vco_fail_fast (o : Oracle) (e : Unit)
    (herr : (calibrate_vco o).2 = Except.error e) :
    ∃ v k, k < 5 ∧
      (calibrate_vco o).1 = (calibTxns v).take (k + 1) ∧
      o k ((calibTxns v).getD k (Txn.write 0 [])) = Except.error () ∧
      ∀ j, j < k → ∃ r, o j ((calibTxns v).getD j (Txn.write 0 []))
        = Except.ok r := by
  cases ha : o 0 (Txn.writeRead I2C_ADDRESS [0x1C] 1) with
  | error e0 =>
    refine ⟨0, 0, by norm_num, ?_, ha, ?_⟩
    · simp only [calibrate_vco, ha, calibTxns]
      rfl
    · intro j hj
      omega
  | ok r0 =>
    cases hb : o 1 (Txn.write I2C_ADDRESS
        [0x1C, (r0.headD 0 % 256) &&& 0x7F]) with
    | error e1 =>
      refine ⟨r0.headD 0 % 256, 1, by norm_num, ?_, hb, ?_⟩
      · simp only [calibrate_vco, ha, hb, calibTxns]
        rfl
      · intro j hj
        interval_cases j
        exact ⟨r0, ha⟩
    | ok u1 =>
      cases hc : o 2 (Txn.write I2C_ADDRESS
          [0x1C, (r0.headD 0 % 256) ||| 0x80]) with
      | error e2 =>
        refine ⟨r0.headD 0 % 256, 2, by norm_num, ?_, hc, ?_⟩
        · simp only [calibrate_vco, ha, hb, hc, calibTxns]
          rfl
        · intro j hj
          interval_cases j
          · exact ⟨r0, ha⟩
          · exact ⟨u1, hb⟩
      | ok u2 =>
        cases hd : o 3 (Txn.write I2C_ADDRESS
            [0x1C, (r0.headD 0 % 256) &&& 0x7F]) with
        | error e3 =>
          refine ⟨r0.headD 0 % 256, 3, by norm_num, ?_, hd, ?_⟩
          · simp only [calibrate_vco, ha, hb, hc, hd, calibTxns]
            rfl
          · intro j hj
            interval_cases j
            · exact ⟨r0, ha⟩
            · exact ⟨u1, hb⟩
            · exact ⟨u2, hc⟩
        | ok u3 =>
          cases he : o 4 (Txn.writeRead I2C_ADDRESS [0x99] 1) with
          | error e4 =>
            refine ⟨r0.headD 0 % 256, 4, by norm_num, ?_, he, ?_⟩
            · simp only [calibrate_vco, ha, hb, hc, hd, he, calibTxns]
              rfl
            · intro j hj
              interval_cases j
              · exact ⟨r0, ha⟩
              · exact ⟨u1, hb⟩
              · exact ⟨u2, hc⟩
              · exact ⟨u3, hd⟩
          | ok r4 =>
            exfalso
            simp only [calibrate_vco, ha, hb, hc, hd, he] at herr
            exact Except.noConfusion herr

theorem calibrate_vco_fail_fast_witness :
    ∃ v k, k < 5 ∧
      (calibrate_vco failAt2Oracle).1 = (calibTxns v).take (k + 1) ∧
      failAt2Oracle k ((calibTxns v).getD k (Txn.write 0 []))
        = Except.error () ∧
      ∀ j, j < k → ∃ r, failAt2Oracle j
        ((calibTxns v).getD j (Txn.write 0 [])) = Except.ok r :=
  calibrate_vco_fail_fast failAt2Oracle () rfl

/-- C10: when calibrate_vco succeeds, the final write to register 0x1C (the
fourth transaction; the fifth is the read of register 0x99) carries the
initially read byte with bit 7 cleared: its payload byte has bit 7 false
and its bits 0 to 6 equal those of the byte read in the first step. -/
theorem calibrate_vco_final_write (o : Oracle) (b : Nat)
    (hok : (calibrate_vco o).2 = Except.ok b) :
    ∃ r, o 0 (Txn.writeRead I2C_ADDRESS [0x1C] 1) = Except.ok r ∧
      (calibrate_vco o).1.getD 3 (Txn.write 0 [])
        = Txn.write I2C_ADDRESS [0x1C, (r.headD 0 % 256) &&& 0x7F] ∧
      (calibrate_vco o).1.getD 4 (Txn.write 0 [])
        = Txn.writeRead I2C_ADDRESS [0x99] 1 ∧
      ((r.headD 0 % 256) &&& 0x7F) % 2 ^ 7 = (r.headD 0 % 256) % 2 ^ 7 ∧
      ((r.headD 0 % 256) &&& 0x7F).testBit 7 = false := by
  cases ha : o 0 (Txn.writeRead I2C_ADDRESS [0x1C] 1) with
  | error e0 =>
    simp only [calibrate_vco, ha] at hok
    exact Except.noConfusion hok
  | ok r0 =>
    cases hb : o 1 (Txn.write I2C_ADDRESS
        [0x1C, (r0.headD 0 % 256) &&& 0x7F]) with
    | error e1 =>
      simp only [calibrate_vco, ha, hb] at hok
      exact Except.noConfusion hok
    | ok u1 =>
      cases hc : o 2 (Txn.write I2C_ADDRESS
          [0x1C, (r0.headD 0 % 256) ||| 0x80]) with
      | error e2 =>
        simp only [calibrate_vco, ha, hb, hc] at hok
        exact Except.noConfusion hok
      | ok u2 =>
        cases hd : o 3 (Txn.write I2C_ADDRESS
            [0x1C, (r0.headD 0 % 256) &&& 0x7F]) with
        | error e3 =>
          simp only [calibrate_vco, ha, hb, hc, hd] at hok
          exact Except.noConfusion hok
        | ok u3 =>
          cases he : o 4 (Txn.writeRead I2C_ADDRESS [0x99] 1) with
          | error e4 =>
            simp only [calibrate_vco, ha, hb, hc, hd, he] at hok
            exact Except.noConfusion hok
          | ok r4 =>
            refine ⟨r0, rfl, ?_, ?_, ?_, testBit7_land _⟩
            · simp only [calibrate_vco, ha, hb, hc, hd, he]
              rfl
            · simp only [calibrate_vco, ha, hb, hc, hd, he]
              rfl
            · rw [land7F_eq_mod]
              omega

theorem calibrate_vco_final_write_witness :
    ∃ r, okOracle 0 (Txn.writeRead I2C_ADDRESS [0x1C] 1) = Except.ok r ∧
      (calibrate_vco okOracle).1.getD 3 (Txn.write 0 [])
        = Txn.write I2C_ADDRESS [0x1C, (r.headD 0 % 256) &&& 0x7F] ∧
      (calibrate_vco okOracle).1.getD 4 (Txn.write 0 [])
        = Txn.writeRead I2C_ADDRESS [0x99] 1 ∧
      ((r.headD 0 % 256) &&& 0x7F) % 2 ^ 7 = (r.headD 0 % 256) % 2 ^ 7 ∧
      ((r.headD 0 % 256) &&& 0x7F).testBit 7 = false :=
  calibrate_vco_final_write okOracle 21 rfl

/- Helper: the calibration trace always starts with the read of 0x1C. -/

theorem calibrate_vco_head (o : Oracle) :
    ∃ l, (calibrate_vco o).1 = Txn.writeRead I2C_ADDRESS [0x1C] 1 :: l := by
  cases ha : o 0 (Txn.writeRead I2C_ADDRESS [0x1C] 1) with
  | error e0 =>
    refine ⟨[], ?_⟩
    simp only [calibrate_vco, ha]
  | ok r0 =>
    cases hb : o 1 (Txn.write I2C_ADDRESS
        [0x1C, (r0.headD 0 % 256) &&& 0x7F]) with
    | error e1 =>
      refine ⟨[Txn.write I2C_ADDRESS [0x1C, (r0.headD 0 % 256) &&& 0x7F]], ?_⟩
      simp only [calibrate_vco, ha, hb]
    | ok u1 =>
      cases hc : o 2 (Txn.write I2C_ADDRESS
          [0x1C, (r0.headD 0 % 256) ||| 0x80]) with
      | error e2 =>
        refine ⟨[Txn.write I2C_ADDRESS [0x1C, (r0.headD 0 % 256) &&& 0x7F],
          Txn.write I2C_ADDRESS [0x1C, (r0.headD 0 % 256) ||| 0x80]], ?_⟩
        simp only [calibrate_vco, ha, hb, hc]
      | ok u2 =>
        cases hd : o 3 (Txn.write I2C_ADDRESS
            [0x1C, (r0.headD 0 % 256) &&& 0x7F]) with
        | error e3 =>
          refine ⟨[Txn.write I2C_ADDRESS [0x1C, (r0.headD 0 % 256) &&& 0x7F],
            Txn.write I2C_ADDRESS [0x1C, (r0.headD 0 % 256) ||| 0x80],
            Txn.write I2C_ADDRESS [0x1C, (r0.headD 0 % 256) &&& 0x7F]], ?_⟩
          simp only [calibrate_vco, ha, hb, hc, hd]
        | ok u3 =>
          cases he : o 4 (Txn.writeRead I2C_ADDRESS [0x99] 1) with
          | error e4 =>
            refine ⟨[Txn.write I2C_ADDRESS [0x1C, (r0.headD 0 % 256) &&& 0x7F],
              Txn.write I2C_ADDRESS [0x1C, (r0.headD 0 % 256) ||| 0x80],
              Txn.write I2C_ADDRESS [0x1C, (r0.headD 0 % 256) &&& 0x7F],
              Txn.writeRead I2C_ADDRESS [0x99] 1], ?_⟩
            simp only [calibrate_vco, ha, hb, hc, hd, he]
          | ok r4 =>
            refine ⟨[Txn.write I2C_ADDRESS [0x1C, (r0.headD 0 % 256) &&& 0x7F],
              Txn.write I2C_ADDRESS [0x1C, (r0.headD 0 % 256) ||| 0x80],
              Txn.write I2C_ADDRESS [0x1C, (r0.headD 0 % 256) &&& 0x7F],
              Txn.writeRead I2C_ADDRESS [0x99] 1], ?_⟩
            simp only [calibrate_vco, ha, hb, hc, hd, he]

/-- C1 (amended): a transport failure on the configuration write does not
short-circuit the flow: main invokes calibrate_vco unconditionally after
write_config, whatever the configuration write's result, so the first
calibration transaction (the read of register 0x1C) is always issued; the
configuration failure is only logged. -/
theorem main_flow_always_calibrates (o : Oracle) :
    (mainFlow o).1 = Txn.write I2C_ADDRESS
        (prog_array 10000000 2700000000 40000000 25000000 24000000 28800000)
      :: (calibrate_vco (shiftOracle o 1)).1 ∧
    (calibrate_vco (shiftOracle o 1)).1.headD (Txn.write 0 [])
      = Txn.writeRead I2C_ADDRESS [0x1C] 1 ∧
    (calibrate_vco (shiftOracle o 1)).1 ≠ [] := by
  obtain ⟨l, hl⟩ := calibrate_vco_head (shiftOracle o 1)
  refine ⟨rfl, ?_, ?_⟩
  · rw [hl]
    rfl
  · rw [hl]
    simp

/-- C1 counterexample: on a bus where every transaction fails, the
configuration write fails and yet a calibration transaction (the read of
register 0x1C) is still issued as the second transaction of the flow, so
the failure does not short-circuit the flow before any calibration
transaction. -/
theorem main_flow_no_short_circuit :
    (mainFlow failOracle).2.1 = Except.error () ∧
    (mainFlow failOracle).1.length = 2 ∧
    (mainFlow failOracle).1.getD 1 (Txn.write 0 [])
      = Txn.writeRead I2C_ADDRESS [0x1C] 1 :=
  ⟨rfl, rfl, rfl⟩

/- Helper: right shifts by at least m bits only depend on the value divided
by 2 to the m. -/

theorem shiftRight_congr (a b m k : Nat) (hmk : m ≤ k)
    (h : a / 2 ^ m = b / 2 ^ m) : a >>> k = b >>> k := by
  rw [Nat.shiftRight_eq_div_pow, Nat.shiftRight_eq_div_pow]
  have hk : (2:Nat) ^ k = 2 ^ m * 2 ^ (k - m) := by
    rw [← pow_add]
    congr 1
    omega
  rw [hk, ← Nat.div_div_eq_div_mul, ← Nat.div_div_eq_div_mul, h]

/-- C9 (amended): serialization truncates the low-order fractional bits of
every divider: no byte of the image reads bits 0 to 7 of the feedback
divider or bits 0 to 5 of an output divider directly, so two inputs whose
dividers differ only in those bits produce byte-identical images provided
their sigma-delta orders also agree (the sigma-delta order selection reads
the full low 32 bits of the feedback divider, bits 0 to 7 included). -/
theorem prog_array_truncation (c v o1 o2 o3 o4 c' v' o1' o2' o3' o4' : Nat)
    (hfd : feedback_divider c v / 2 ^ 8 = feedback_divider c' v' / 2 ^ 8)
    (hsdo : sigma_delta_order c v = sigma_delta_order c' v')
    (h1 : output_divider v o1 / 2 ^ 6 = output_divider v' o1' / 2 ^ 6)
    (h2 : output_divider v o2 / 2 ^ 6 = output_divider v' o2' / 2 ^ 6)
    (h3 : output_divider v o3 / 2 ^ 6 = output_divider v' o3' / 2 ^ 6)
    (h4 : output_divider v o4 / 2 ^ 6 = output_divider v' o4' / 2 ^ 6) :
    prog_array c v o1 o2 o3 o4 = prog_array c' v' o1' o2' o3' o4' := by
  have f36 := shiftRight_congr _ _ 8 36 (by norm_num) hfd
  have f28 := shiftRight_congr _ _ 8 28 (by norm_num) hfd
  have f24 := shiftRight_congr _ _ 8 24 (by norm_num) hfd
  have f16 := shiftRight_congr _ _ 8 16 (by norm_num) hfd
  have f8 := shiftRight_congr _ _ 8 8 (by norm_num) hfd
  have a36 := shiftRight_congr _ _ 6 36 (by norm_num) h1
  have a30 := shiftRight_congr _ _ 6 30 (by norm_num) h1
  have a28 := shiftRight_congr _ _ 6 28 (by norm_num) h1
  have a22 := shiftRight_congr _ _ 6 22 (by norm_num) h1
  have a14 := shiftRight_congr _ _ 6 14 (by norm_num) h1
  have a6 := shiftRight_congr _ _ 6 6 (by norm_num) h1
  have b36 := shiftRight_congr _ _ 6 36 (by norm_num) h2
  have b30 := shiftRight_congr _ _ 6 30 (by norm_num) h2
  have b28 := shiftRight_congr _ _ 6 28 (by norm_num) h2
  have b22 := shiftRight_congr _ _ 6 22 (by norm_num) h2
  have b14 := shiftRight_congr _ _ 6 14 (by norm_num) h2
  have b6 := shiftRight_congr _ _ 6 6 (by norm_num) h2
  have c36 := shiftRight_congr _ _ 6 36 (by norm_num) h3
  have c30 := shiftRight_congr _ _ 6 30 (by norm_num) h3
  have c28 := shiftRight_congr _ _ 6 28 (by norm_num) h3
  have c22 := shiftRight_congr _ _ 6 22 (by norm_num) h3
  have c14 := shiftRight_congr _ _ 6 14 (by norm_num) h3
  have c6 := shiftRight_congr _ _ 6 6 (by norm_num) h3
  have d36 := shiftRight_congr _ _ 6 36 (by norm_num) h4
  have d30 := shiftRight_congr _ _ 6 30 (by norm_num) h4
  have d28 := shiftRight_congr _ _ 6 28 (by norm_num) h4
  have d22 := shiftRight_congr _ _ 6 22 (by norm_num) h4
  have d14 := shiftRight_congr _ _ 6 14 (by norm_num) h4
  have d6 := shiftRight_congr _ _ 6 6 (by norm_num) h4
  simp only [prog_array, f36, f28, f24, f16, f8, hsdo,
    a36, a30, a28, a22, a14, a6, b36, b30, b28, b22, b14, b6,
    c36, c30, c28, c22, c14, c6, d36, d30, d28, d22, d14, d6]

theorem prog_array_truncation_witness :
    feedback_divider 2147483648 2147483649 / 2 ^ 8
      = feedback_divider 2147483647 2147483649 / 2 ^ 8 ∧
    sigma_delta_order 2147483648 2147483649
      = sigma_delta_order 2147483647 2147483649 ∧
    prog_array 2147483648 2147483649 1 1 1 1
      = prog_array 2147483647 2147483649 1 1 1 1 :=
  ⟨by decide, by decide,
   prog_array_truncation 2147483648 2147483649 1 1 1 1
     2147483647 2147483649 1 1 1 1 (by decide) (by decide) rfl rfl rfl rfl⟩

/-- C9 counterexample: with reference 2147483649 versus 2147483648 at the
same VCO frequency 2147483649 and the same output frequencies, the two
feedback dividers are 4294967296 and 4294967298, differing only in bits
0 to 7, and the four output dividers coincide (same VCO and outputs), yet
the images are not byte-identical: the sigma-delta order field of register
0x18 reads the feedback divider's full 32 fraction bits, bits 0 to 7
included. -/
theorem prog_array_truncation_cex :
    feedback_divider 2147483649 2147483649 = 4294967296 ∧
    feedback_divider 2147483648 2147483649 = 4294967298 ∧
    feedback_divider 2147483649 2147483649 / 2 ^ 8
      = feedback_divider 2147483648 2147483649 / 2 ^ 8 ∧
    ¬ prog_array 2147483649 2147483649 1 1 1 1
      = prog_array 2147483648 2147483649 1 1 1 1 :=
  ⟨by decide, by decide, by decide, by decide⟩

end Pll5p49v
